import Mathlib

/-!
Shallow embedding of the alphaSim coverage/visibility simulator:
the terrain elevation grid (`terrain/loader.py`), the aircraft kinematics
(`aircraft/base.py`), the sensor observation pipeline (`sensors/base.py`)
and the fixed-step simulation loop (`simulation.py`).

Python floats are modelled as exact real numbers (terrain data, which never
needs a square root, uses exact rationals so that every terrain operation
stays executable).  Python `None` becomes `Option.none`, a Python `dict`
becomes an association list with insert-or-overwrite semantics, and the
global numpy random generator becomes an explicit stream of draws together
with a cursor into it.
-/

namespace AlphaSim

/-- Truncation toward zero: the behaviour of Python `int()` applied to the
result of a division, as in `steps = int(duration / dt)`. -/
def ratTrunc (q : ℚ) : ℤ := if 0 ≤ q then ⌊q⌋ else ⌈q⌉

/-- Geographic bounds `(min_lat, max_lat, min_lon, max_lon)` as used by
`TerrainData.__init__` and `Simulation.__init__`. -/
structure Bounds where
  min_lat : ℚ
  max_lat : ℚ
  min_lon : ℚ
  max_lon : ℚ
deriving DecidableEq

/-- numpy.linspace over the rationals: `num` evenly spaced points from
`start` to `stop`, endpoints included (a single point degenerates to
`start`). -/
def linspace (start stop : ℚ) (num : ℕ) : List ℚ :=
  if num = 1 then [start]
  else (List.range num).map (fun i => start + (stop - start) * i / ((num : ℚ) - 1))

/-- Terrain elevation raster: `TerrainData` from `terrain/loader.py`. -/
structure TerrainData where
  bounds : Bounds
  resolution : ℚ
  elevations : List (List ℚ)
  lat_grid : List ℚ
  lon_grid : List ℚ
deriving DecidableEq

/-- An all-zero raster, `np.zeros((r, c))`. -/
def zerosMatrix (r c : ℕ) : List (List ℚ) :=
  (List.range r).map (fun _ => (List.range c).map (fun _ => (0 : ℚ)))

/-- TerrainData.__init__: grid sizes are `int(span / resolution)` per axis and
the coordinate grids are `linspace` over the bounds.  Python raises
ZeroDivisionError when `resolution` is zero and numpy raises ValueError when a
computed grid dimension is negative; both construction-time failures are
modelled as `none`. -/
def TerrainData.make (bounds : Bounds) (resolution : ℚ) : Option TerrainData :=
  if resolution = 0 then none
  else
    let lat_points := ratTrunc ((bounds.max_lat - bounds.min_lat) / resolution)
    let lon_points := ratTrunc ((bounds.max_lon - bounds.min_lon) / resolution)
    if lat_points < 0 ∨ lon_points < 0 then none
    else some
      { bounds := bounds
        resolution := resolution
        elevations := zerosMatrix lat_points.toNat lon_points.toNat
        lat_grid := linspace bounds.min_lat bounds.max_lat lat_points.toNat
        lon_grid := linspace bounds.min_lon bounds.max_lon lon_points.toNat }

/-- TerrainData._in_bounds: the query point lies inside the stored bounds. -/
def TerrainData.in_bounds (t : TerrainData) (lat lon : ℚ) : Bool :=
  decide (t.bounds.min_lat ≤ lat ∧ lat ≤ t.bounds.max_lat ∧
          t.bounds.min_lon ≤ lon ∧ lon ≤ t.bounds.max_lon)

/-- Index of the first element of the list minimising the absolute difference
to `x`: the value of `np.argmin(np.abs(grid - x))` (numpy returns the first
position attaining the minimum; on an empty array numpy raises, here the
value 0 is returned and is never used at that type of input). -/
def argminAbs (x : ℚ) : List ℚ → ℕ
  | [] => 0
  | y :: ys =>
    match ys.get? (argminAbs x ys) with
    | none => 0
    | some v => if |y - x| ≤ |v - x| then 0 else argminAbs x ys + 1

/-- TerrainData.get_elevation: `None` when the query is out of bounds,
otherwise the elevation at the nearest grid point
`elevations[argmin |lat_grid - lat|][argmin |lon_grid - lon|]`. -/
def TerrainData.get_elevation (t : TerrainData) (lat lon : ℚ) : Option ℚ :=
  if !(t.in_bounds lat lon) then none
  else
    (t.elevations.get? (argminAbs lat t.lat_grid)).bind
      (fun row => row.get? (argminAbs lon t.lon_grid))

/-- TerrainData.generate_synthetic: the code evaluates
`base_elevation + variation * np.random.random(elevations.shape)`.
The unseeded global numpy generator is modelled as a `stream` of draws with a
`cursor` giving the position of the next draw; `np.random.random(shape)`
consumes `rows * cols` draws in row-major order and advances the cursor.  The
function has no seed parameter, exactly as in the code. -/
def TerrainData.generate_synthetic (t : TerrainData) (base_elevation variation : ℚ)
    (stream : ℕ → ℚ) (cursor : ℕ) : TerrainData × ℕ :=
  let rows := t.elevations.length
  let cols := ((t.elevations.get? 0).getD []).length
  ({ t with elevations :=
      (List.range rows).map (fun i =>
        (List.range cols).map (fun j =>
          base_elevation + variation * stream (cursor + i * cols + j))) },
   cursor + rows * cols)

/-- A one-cell terrain raster whose single grid point sits at (2, 2) with
elevation 100 m, covering latitudes and longitudes 0..4: a ridge of height
100 m lying between the origin and the point (3, 4). -/
def ridgeTerrain : TerrainData :=
  { bounds := ⟨0, 4, 0, 4⟩, resolution := 4, elevations := [[100]],
    lat_grid := [2], lon_grid := [2] }

/-- A 2 by 2 terrain raster over the unit square, used to exercise the
nearest-grid-point elevation lookup. -/
def squareTerrain : TerrainData :=
  { bounds := ⟨0, 1, 0, 1⟩, resolution := 1/2, elevations := [[5, 6], [7, 8]],
    lat_grid := [0, 1], lon_grid := [0, 1] }

/-- A one-cell terrain raster with elevation 0, used to exercise the
synthetic-terrain generator. -/
def flatCellTerrain : TerrainData :=
  { bounds := ⟨0, 1, 0, 1⟩, resolution := 1, elevations := [[0]],
    lat_grid := [0], lon_grid := [0] }

/-- A concrete state of the global random generator: the stream of draws
0, 1/2, 1, 3/2, ... -/
def drawStream : ℕ → ℚ := fun n => (n : ℚ) / 2

/-- Insertion into a Python dict modelled as an association list:
`d[k] = v` overwrites in place when the key is present and appends a new
entry (at the end, preserving insertion order) when it is not. -/
def dictInsert {α : Type} (k : String) (v : α) : List (String × α) → List (String × α)
  | [] => [(k, v)]
  | (k1, v1) :: rest => if k1 = k then (k, v) :: rest else (k1, v1) :: dictInsert k v rest

noncomputable section

/-- A numpy 3-vector `(latitude, longitude, altitude)` as stored by
`Sensor.position` and `Aircraft.position`. -/
structure Vec3 where
  lat : ℝ
  lon : ℝ
  alt : ℝ

/-- Componentwise difference, `a - b` on numpy arrays. -/
def Vec3.sub (a b : Vec3) : Vec3 := ⟨a.lat - b.lat, a.lon - b.lon, a.alt - b.alt⟩

/-- Componentwise sum, `a + b` on numpy arrays. -/
def Vec3.add (a b : Vec3) : Vec3 := ⟨a.lat + b.lat, a.lon + b.lon, a.alt + b.alt⟩

/-- Scalar multiple `v * c` on numpy arrays. -/
def Vec3.smul (v : Vec3) (c : ℝ) : Vec3 := ⟨v.lat * c, v.lon * c, v.alt * c⟩

/-- Sum of squared components, so that `np.linalg.norm v = Real.sqrt v.normSq`. -/
def Vec3.normSq (v : Vec3) : ℝ := v.lat ^ 2 + v.lon ^ 2 + v.alt ^ 2

/-- Aircraft state from `aircraft/base.py`. -/
structure Aircraft where
  id : String
  position : Vec3
  velocity : Vec3
  trajectory : List Vec3

/-- Aircraft.__init__. -/
def Aircraft.make (aircraft_id : String) (initial_position velocity : Vec3) : Aircraft :=
  { id := aircraft_id, position := initial_position, velocity := velocity,
    trajectory := [initial_position] }

/-- Aircraft.update: `position += velocity * dt` followed by
`trajectory.append(position.copy())`. -/
def Aircraft.update (a : Aircraft) (dt : ℝ) : Aircraft :=
  { a with position := a.position.add (a.velocity.smul dt),
           trajectory := a.trajectory ++ [a.position.add (a.velocity.smul dt)] }

/-- Sensor configuration from `sensors/base.py`. -/
structure Sensor where
  id : String
  position : Vec3
  max_range : ℝ
  field_of_view : ℝ

/-- Sensor.__init__: the four arguments are stored as given; the constructor
performs no validation and has no failure path. -/
def Sensor.make (sensor_id : String) (position : Vec3)
    (max_range field_of_view : ℝ) : Sensor :=
  { id := sensor_id, position := position, max_range := max_range,
    field_of_view := field_of_view }

/-- Sensor._calculate_distance: `np.linalg.norm(self.position - target_position)`,
the Euclidean norm of the raw componentwise differences (degrees of latitude,
degrees of longitude and metres of altitude mixed as plain numbers). -/
def Sensor.calculate_distance (s : Sensor) (target_position : Vec3) : ℝ :=
  Real.sqrt ((s.position.sub target_position).normSq)

/-- Sensor._in_field_of_view: the stub in the code, `return True`
unconditionally, ignoring the target and any boresight (the class stores no
boresight at all). -/
def Sensor.in_field_of_view (_s : Sensor) (_target_position : Vec3) : Bool := true

/-- Sensor._has_line_of_sight: the stub in the code, `return True`
unconditionally, ignoring the terrain data entirely. -/
def Sensor.has_line_of_sight (_s : Sensor) (_target_position : Vec3)
    (_terrain_data : Option TerrainData) : Bool := true

/-- Sensor._calculate_quality:
`quality = 1.0 - (distance / self.max_range); return max(0.0, min(1.0, quality))`.
The aircraft argument is accepted and unused, as in the code. -/
def Sensor.calculate_quality (s : Sensor) (distance : ℝ) (_aircraft : Aircraft) : ℝ :=
  max 0 (min 1 (1 - distance / s.max_range))

/-- The observation dictionary built by a successful `Sensor.observe`. -/
structure Observation where
  sensor_id : String
  aircraft_id : String
  distance : ℝ
  quality : ℝ
  position : Vec3

/-- Sensor.observe: reject when `distance > max_range`, then when the
field-of-view stub fails, then when the line-of-sight stub fails; otherwise
return the observation record with the distance-based quality. -/
def Sensor.observe (s : Sensor) (aircraft : Aircraft)
    (terrain_data : Option TerrainData) : Option Observation :=
  if s.calculate_distance aircraft.position > s.max_range then none
  else if !(s.in_field_of_view aircraft.position) then none
  else if !(s.has_line_of_sight aircraft.position terrain_data) then none
  else some
    { sensor_id := s.id
      aircraft_id := aircraft.id
      distance := s.calculate_distance aircraft.position
      quality := s.calculate_quality (s.calculate_distance aircraft.position) aircraft
      position := aircraft.position }

/-- Simulation state from `simulation.py`; the Python object is mutated in
place, here each mutating method returns the new state. -/
structure Simulation where
  bounds : Bounds
  sensors : List Sensor
  aircraft : List Aircraft
  terrain_data : Option TerrainData
  time : ℝ

/-- Simulation.__init__ (with explicit bounds; the DC-area default is a
particular `Bounds` value). -/
def Simulation.make (bounds : Bounds) : Simulation :=
  { bounds := bounds, sensors := [], aircraft := [], terrain_data := none,
    time := 0 }

/-- Simulation.add_sensor: appends to the sensor list. -/
def Simulation.add_sensor (sim : Simulation) (s : Sensor) : Simulation :=
  { sim with sensors := sim.sensors ++ [s] }

/-- Simulation.add_aircraft: appends to the aircraft list. -/
def Simulation.add_aircraft (sim : Simulation) (a : Aircraft) : Simulation :=
  { sim with aircraft := sim.aircraft ++ [a] }

/-- Simulation.load_terrain. -/
def Simulation.load_terrain (sim : Simulation) (t : TerrainData) : Simulation :=
  { sim with terrain_data := some t }

/-- Simulation._calculate_observations: for each sensor in order, collect the
non-`None` results of observing every aircraft in order, and store the list
(possibly empty) under the sensor's id in the observations dict. -/
def Simulation.calculate_observations (sim : Simulation) :
    List (String × List Observation) :=
  sim.sensors.foldl
    (fun obs s =>
      dictInsert s.id
        (sim.aircraft.filterMap (fun a => s.observe a sim.terrain_data)) obs)
    []

/-- Simulation.step: advance the clock by `dt`, update every aircraft, then
compute all observations from the updated state. -/
def Simulation.step (sim : Simulation) (dt : ℝ) :
    Simulation × List (String × List Observation) :=
  let sim1 := { sim with time := sim.time + dt,
                         aircraft := sim.aircraft.map (fun a => a.update dt) }
  (sim1, sim1.calculate_observations)

/-- The loop body of Simulation.run: perform `n` steps, recording after each
step the pair of the current simulation time and that step's observations. -/
def Simulation.runSteps (sim : Simulation) (dt : ℝ) :
    ℕ → Simulation × List (ℝ × List (String × List Observation))
  | 0 => (sim, [])
  | n + 1 =>
    let stepResult := sim.step dt
    let rest := stepResult.1.runSteps dt n
    (rest.1, (stepResult.1.time, stepResult.2) :: rest.2)

/-- Truncation toward zero on the reals, Python `int()` on a float. -/
def realTrunc (x : ℝ) : ℤ := if 0 ≤ x then ⌊x⌋ else ⌈x⌉

/-- Simulation.run: `steps = int(duration / dt)` (a Python `range` over a
negative count is empty, hence `Int.toNat`) followed by that many repeated
invocations of `step`, collecting the `(time, observations)` records. -/
def Simulation.run (sim : Simulation) (duration : ℝ) (dt : ℝ) :
    Simulation × List (ℝ × List (String × List Observation)) :=
  sim.runSteps dt (realTrunc (duration / dt)).toNat

/-- A sensor whose configured field of view is only 10 degrees. -/
def narrowSensor : Sensor := Sensor.make "narrow" ⟨0, 0, 0⟩ 1000 10

/-- The ground-level sensor of the occlusion scenario. -/
def ridgeSensor : Sensor := Sensor.make "ridge-watch" ⟨0, 0, 0⟩ 10 360

/-- An aircraft at ground altitude on the far side of the ridge from
`ridgeSensor`, well inside its range. -/
def lowFlyer : Aircraft := Aircraft.make "low" ⟨3, 4, 0⟩ ⟨0, 0, 0⟩

/-- A sensor at the origin with a very large range. -/
def originSensor : Sensor := Sensor.make "origin" ⟨0, 0, 0⟩ 1000000 360

/-- The sensor of the tick-ordering scenario. -/
def watchSensor : Sensor := Sensor.make "watch" ⟨0, 0, 0⟩ 10 360

/-- An aircraft that enters `watchSensor`'s range only after its first
update. -/
def inboundFlyer : Aircraft := Aircraft.make "inbound" ⟨0, 3, 0⟩ ⟨0, 0, 4⟩

/-- A simulation holding `watchSensor` and `inboundFlyer`. -/
def approachSim : Simulation :=
  ((Simulation.make ⟨0, 1, 0, 1⟩).add_sensor watchSensor).add_aircraft inboundFlyer

/-- The sensor of the quality scenarios, with `max_range` 10. -/
def qSensor : Sensor := Sensor.make "q" ⟨0, 0, 0⟩ 10 360

/-- An aircraft at distance 5 from `qSensor`. -/
def nearFlyer : Aircraft := Aircraft.make "near" ⟨0, 3, 4⟩ ⟨0, 0, 0⟩

/-- An aircraft at distance 11 from `qSensor`, strictly beyond its range. -/
def farFlyer : Aircraft := Aircraft.make "far" ⟨0, 0, 11⟩ ⟨0, 0, 0⟩

/-- An aircraft at distance exactly 10 from `qSensor`, the borderline. -/
def rimFlyer : Aircraft := Aircraft.make "rim" ⟨0, 6, 8⟩ ⟨0, 0, 0⟩

/-- The observation `qSensor` produces for `nearFlyer`. -/
def nearObs : Observation :=
  { sensor_id := "q", aircraft_id := "near", distance := 5, quality := 1/2,
    position := ⟨0, 3, 4⟩ }

/-- A freshly constructed simulation over the default DC-area bounds, with no
sensors and no aircraft. -/
def emptySim : Simulation := Simulation.make ⟨38.8, 39, -77.2, -76.9⟩

/-- A simulation with two sensors (the second of which can detect nothing)
and one aircraft. -/
def dualSim : Simulation :=
  (((Simulation.make ⟨0, 1, 0, 1⟩).add_sensor
      (Sensor.make "alpha" ⟨0, 0, 0⟩ 10 360)).add_sensor
      (Sensor.make "bravo" ⟨0, 0, 0⟩ 1 360)).add_aircraft
      (Aircraft.make "a1" ⟨0, 3, 0⟩ ⟨0, 0, 4⟩)

end

/-- Helper: a square root evaluates to `b` when the radicand is `b ^ 2`. -/
theorem sqrt_eval {a b : ℝ} (hb : 0 ≤ b) (h : a = b ^ 2) : Real.sqrt a = b := by
  rw [h]; exact Real.sqrt_sq hb

/-- Helper: the sensor distance written out on coordinates. -/
theorem Sensor.calculate_distance_eval (s : Sensor) (p : Vec3) :
    s.calculate_distance p =
      Real.sqrt ((s.position.lat - p.lat) ^ 2 + (s.position.lon - p.lon) ^ 2 +
        (s.position.alt - p.alt) ^ 2) := rfl

/-- Helper: when the target is within range, `observe` succeeds and returns
exactly the observation record of the code (the two visibility stubs always
pass). -/
theorem Sensor.observe_of_le {s : Sensor} {a : Aircraft} {t : Option TerrainData}
    (h : s.calculate_distance a.position ≤ s.max_range) :
    s.observe a t = some
      { sensor_id := s.id, aircraft_id := a.id,
        distance := s.calculate_distance a.position,
        quality := s.calculate_quality (s.calculate_distance a.position) a,
        position := a.position } := by
  unfold Sensor.observe
  rw [if_neg (not_lt.2 h)]
  simp [Sensor.in_field_of_view, Sensor.has_line_of_sight]

/-- Helper: any observation returned by `observe` is the record built from
the observed aircraft's current position. -/
theorem Sensor.observe_eq_some {s : Sensor} {a : Aircraft} {t : Option TerrainData}
    {o : Observation} (h : s.observe a t = some o) :
    o = { sensor_id := s.id, aircraft_id := a.id,
          distance := s.calculate_distance a.position,
          quality := s.calculate_quality (s.calculate_distance a.position) a,
          position := a.position } := by
  unfold Sensor.observe at h
  simp only [Sensor.in_field_of_view, Sensor.has_line_of_sight, Bool.not_true,
    Bool.false_eq_true, if_false] at h
  split at h
  · exact absurd h (by simp)
  · exact (Option.some.inj h).symm

/-- C1: the field-of-view test of the code passes for every target direction
even though the sensor is configured with a 10-degree field of view and no
way to opt into omnidirectional behaviour exists: `_in_field_of_view` is the
constant `True`, an implicit default rather than an explicit no-boresight
configuration, so targets in diametrically opposite directions are both
reported inside a 10-degree cone. -/
theorem fov_stub_accepts_every_direction :
    narrowSensor.field_of_view = 10 ∧
    ∀ p : Vec3, narrowSensor.in_field_of_view p = true :=
  ⟨rfl, fun _ => rfl⟩

/-- C3: the distance used by the sensor pipeline is the flat Euclidean norm
of the raw coordinate differences: one degree of longitude at the equator
(surface distance about 111 km) and one metre of altitude both come out as
the same distance 1, so the pipeline's distance is not the great-circle
distance combined with the altitude difference. -/
theorem distance_is_flat_degree_euclidean :
    originSensor.calculate_distance ⟨0, 1, 0⟩ = 1 ∧
    originSensor.calculate_distance ⟨0, 0, 1⟩ = 1 := by
  constructor <;>
  · rw [Sensor.calculate_distance_eval]
    simp only [originSensor, Sensor.make]
    exact sqrt_eval (by norm_num) (by norm_num)

/-- C7: constructing a sensor with a negative `max_range` and a field of view
of 400 degrees (outside (0, 360]) succeeds and silently stores the malformed
values; the constructor has no failure path. -/
theorem sensor_construction_accepts_invalid :
    (Sensor.make "s7" ⟨0, 0, 0⟩ (-5) 400).max_range = -5 ∧
    (Sensor.make "s7" ⟨0, 0, 0⟩ (-5) 400).field_of_view = 400 :=
  ⟨rfl, rfl⟩

/-- C2: the occlusion scenario of the spec fails on the code: a ground-level
sensor, a ridge of elevation 100 m between it and a ground-level target at
distance 5 (inside the 10 m range and the 360-degree field of view), yet
`observe` still returns a detection, because `_has_line_of_sight` ignores the
terrain and returns `True`. -/
theorem observe_detects_occluded_target :
    ridgeSensor.position.alt = 0 ∧
    lowFlyer.position.alt = 0 ∧
    ridgeTerrain.get_elevation (3/2) 2 = some 100 ∧
    ridgeSensor.calculate_distance lowFlyer.position = 5 ∧
    ridgeSensor.observe lowFlyer (some ridgeTerrain) ≠ none := by
  have hd : ridgeSensor.calculate_distance lowFlyer.position = 5 := by
    rw [Sensor.calculate_distance_eval]
    simp only [ridgeSensor, lowFlyer, Sensor.make, Aircraft.make]
    exact sqrt_eval (by norm_num) (by norm_num)
  refine ⟨rfl, rfl, ?_, hd, ?_⟩
  · norm_num [TerrainData.get_elevation, TerrainData.in_bounds, ridgeTerrain, argminAbs]
  have hle : ridgeSensor.calculate_distance lowFlyer.position ≤ ridgeSensor.max_range := by
    rw [hd]; show (5 : ℝ) ≤ 10; norm_num
  rw [Sensor.observe_of_le hle]
  simp

/-- C9: the synthetic terrain generator has no seed parameter and reads the
global random state: two calls with identical arguments on the same one-cell
grid, issued back to back (the second starting at the cursor where the first
left off), produce different rasters. -/
theorem generate_synthetic_reads_global_state :
    (flatCellTerrain.generate_synthetic 50 100 drawStream 0).1.elevations = [[50]] ∧
    (flatCellTerrain.generate_synthetic 50 100 drawStream
        (flatCellTerrain.generate_synthetic 50 100 drawStream 0).2).1.elevations = [[100]] ∧
    ([[(50 : ℚ)]] : List (List ℚ)) ≠ [[100]] := by
  refine ⟨?_, ?_, by norm_num⟩ <;>
    norm_num [TerrainData.generate_synthetic, flatCellTerrain, drawStream,
      List.range_succ]

/-- Helper: inserting a key not already present appends the entry at the
end of the dict. -/
theorem dictInsert_of_not_mem {α : Type} {k : String} (v : α)
    {l : List (String × α)} (h : k ∉ l.map Prod.fst) :
    dictInsert k v l = l ++ [(k, v)] := by
  induction l with
  | nil => rfl
  | cons p rest ih =>
    simp only [List.map_cons, List.mem_cons, not_or] at h
    obtain ⟨h1, h2⟩ := h
    cases p with
    | mk k1 v1 =>
      replace h1 : k ≠ k1 := by simpa using h1
      simp only [dictInsert]
      rw [if_neg (Ne.symm h1), ih h2, List.cons_append]

/-- Helper: folding dict insertions over sensors with pairwise distinct ids,
starting from an accumulator containing none of those ids, appends one entry
per sensor in order. -/
theorem foldl_dictInsert_eq {α : Type} (F : Sensor → α) :
    ∀ (sensors : List Sensor) (acc : List (String × α)),
      (sensors.map Sensor.id).Nodup →
      (∀ s ∈ sensors, s.id ∉ acc.map Prod.fst) →
      sensors.foldl (fun obs s => dictInsert s.id (F s) obs) acc =
        acc ++ sensors.map (fun s => (s.id, F s))
  | [], acc, _, _ => by simp
  | s :: rest, acc, hnd, hdisj => by
    rw [List.map_cons, List.nodup_cons] at hnd
    simp only [List.foldl_cons]
    rw [dictInsert_of_not_mem (F s) (hdisj s (List.mem_cons_self s rest))]
    rw [foldl_dictInsert_eq F rest (acc ++ [(s.id, F s)]) hnd.2 ?_]
    · simp
    · intro s2 hs2
      simp only [List.map_append, List.mem_append, not_or, List.map_cons,
        List.map_nil, List.mem_singleton]
      refine ⟨hdisj s2 (List.mem_cons_of_mem s hs2), fun hEq => ?_⟩
      exact hnd.1 (hEq ▸ List.mem_map_of_mem Sensor.id hs2)

/-- Helper: with pairwise distinct sensor ids the observation dict is exactly
one entry per sensor, in the order the sensors are stored. -/
theorem Simulation.calculate_observations_eq (sim : Simulation)
    (hnd : (sim.sensors.map Sensor.id).Nodup) :
    sim.calculate_observations =
      sim.sensors.map (fun s =>
        (s.id, sim.aircraft.filterMap (fun a => s.observe a sim.terrain_data))) := by
  unfold Simulation.calculate_observations
  rw [foldl_dictInsert_eq (fun s =>
    sim.aircraft.filterMap (fun a => s.observe a sim.terrain_data))
    sim.sensors [] hnd (by simp)]
  simp

/-- Helper: the observations returned by `step`, spelt out: each sensor
observes the already-updated aircraft list. -/
theorem Simulation.step_snd (sim : Simulation) (dt : ℝ)
    (hnd : (sim.sensors.map Sensor.id).Nodup) :
    (sim.step dt).2 =
      sim.sensors.map (fun s =>
        (s.id, (sim.aircraft.map (fun a => a.update dt)).filterMap
          (fun a => s.observe a sim.terrain_data))) :=
  Simulation.calculate_observations_eq
    { sim with time := sim.time + dt,
               aircraft := sim.aircraft.map (fun a => a.update dt) } hnd

/-- Helper: `runSteps` produces exactly one record per step. -/
theorem Simulation.runSteps_length (dt : ℝ) :
    ∀ (n : ℕ) (sim : Simulation), (sim.runSteps dt n).2.length = n
  | 0, _ => rfl
  | n + 1, sim => by
    simp only [Simulation.runSteps, List.length_cons]
    rw [Simulation.runSteps_length dt n]

/-- C10: the mapping returned by `step` has exactly one entry per sensor of
the simulation (given the data-model invariant that sensor ids are unique):
the keys are the sensor ids in the order the sensors were added, and each is
bound to the — possibly empty — list of that sensor's successful
observations, so a sensor that detects nothing is present with `[]` rather
than omitted. -/
theorem step_has_one_entry_per_sensor (sim : Simulation) (dt : ℝ)
    (hnd : (sim.sensors.map Sensor.id).Nodup) :
    (sim.step dt).2 =
      sim.sensors.map (fun s =>
        (s.id, (sim.aircraft.map (fun a => a.update dt)).filterMap
          (fun a => s.observe a sim.terrain_data))) ∧
    (sim.step dt).2.map Prod.fst = sim.sensors.map Sensor.id := by
  have h := Simulation.step_snd sim dt hnd
  refine ⟨h, ?_⟩
  rw [h, List.map_map]
  rfl

/-- Witness for C10 on a concrete two-sensor, one-aircraft simulation. -/
theorem step_has_one_entry_per_sensor_witness :
    (dualSim.step 1).2 =
      dualSim.sensors.map (fun s =>
        (s.id, (dualSim.aircraft.map (fun a => a.update 1)).filterMap
          (fun a => s.observe a dualSim.terrain_data))) ∧
    (dualSim.step 1).2.map Prod.fst = dualSim.sensors.map Sensor.id :=
  step_has_one_entry_per_sensor dualSim 1 (by
    simp [dualSim, Simulation.make, Simulation.add_sensor,
      Simulation.add_aircraft, Sensor.make])

/-- C4: within one `step`, all aircraft are updated before any sensor
observes: every observation in the returned mapping snapshots some
aircraft's post-update position (first conjunct), and an aircraft that is
within a sensor's range at its post-update position appears in that sensor's
observation list of the same tick with that post-update position (second
conjunct). -/
theorem step_observes_post_update_positions (sim : Simulation) (dt : ℝ)
    (s : Sensor) (a : Aircraft)
    (hnd : (sim.sensors.map Sensor.id).Nodup)
    (hs : s ∈ sim.sensors) (ha : a ∈ sim.aircraft)
    (hr : s.calculate_distance (a.update dt).position ≤ s.max_range) :
    (∀ p ∈ (sim.step dt).2, ∀ o ∈ p.2, ∃ b ∈ sim.aircraft,
        o.aircraft_id = b.id ∧ o.position = (b.update dt).position) ∧
    ∃ l, (s.id, l) ∈ (sim.step dt).2 ∧ ∃ o ∈ l,
        o.aircraft_id = a.id ∧ o.position = (a.update dt).position := by
  have hstep := Simulation.step_snd sim dt hnd
  constructor
  · intro p hp o ho
    rw [hstep] at hp
    obtain ⟨s2, _, rfl⟩ := List.mem_map.1 hp
    obtain ⟨b1, hb1, hob⟩ := List.mem_filterMap.1 ho
    obtain ⟨b, hb, rfl⟩ := List.mem_map.1 hb1
    have hoe := Sensor.observe_eq_some hob
    subst hoe
    exact ⟨b, hb, rfl, rfl⟩
  · refine ⟨(sim.aircraft.map (fun b => b.update dt)).filterMap
      (fun b => s.observe b sim.terrain_data), ?_, ?_⟩
    · rw [hstep]
      exact List.mem_map_of_mem _ hs
    · exact ⟨_, List.mem_filterMap.2
        ⟨a.update dt, List.mem_map_of_mem _ ha, Sensor.observe_of_le hr⟩,
        rfl, rfl⟩

/-- Witness for C4: a concrete aircraft that starts out of range and enters
range after its update is reported at its post-update position. -/
theorem step_observes_post_update_positions_witness :
    (∀ p ∈ (approachSim.step 1).2, ∀ o ∈ p.2, ∃ b ∈ approachSim.aircraft,
        o.aircraft_id = b.id ∧ o.position = (b.update 1).position) ∧
    ∃ l, (watchSensor.id, l) ∈ (approachSim.step 1).2 ∧ ∃ o ∈ l,
        o.aircraft_id = inboundFlyer.id ∧
        o.position = (inboundFlyer.update 1).position := by
  have hup : (inboundFlyer.update 1).position = (⟨0, 3, 4⟩ : Vec3) := by
    norm_num [inboundFlyer, Aircraft.make, Aircraft.update, Vec3.add, Vec3.smul]
  have hd : watchSensor.calculate_distance (⟨0, 3, 4⟩ : Vec3) = 5 := by
    rw [Sensor.calculate_distance_eval]
    refine sqrt_eval (by norm_num) ?_
    norm_num [watchSensor, Sensor.make]
  exact step_observes_post_update_positions approachSim 1 watchSensor inboundFlyer
    (by simp [approachSim, watchSensor, Simulation.make, Simulation.add_sensor,
      Simulation.add_aircraft, Sensor.make])
    (by simp [approachSim, Simulation.make, Simulation.add_sensor,
      Simulation.add_aircraft])
    (by simp [approachSim, Simulation.make, Simulation.add_sensor,
      Simulation.add_aircraft])
    (by rw [hup, hd]; simp [watchSensor, Sensor.make]; norm_num)

/-- C6 counterexample: at `duration = -1`, `dt = 1` the claim fails as
stated — `run` performs 0 steps (Python truncates toward zero and iterates
an empty range), not `floor(-1 / 1) = -1` steps. -/
theorem run_negative_duration_not_floor :
    ¬ (((emptySim.run (-1) 1).2.length : ℤ) = ⌊((-1 : ℝ)) / 1⌋) := by
  have hceil : (⌈((-1 : ℝ)) / 1⌉ : ℤ) = -1 := by
    norm_num
    rw [show ((-1 : ℝ)) = ((-1 : ℤ) : ℝ) by norm_num, Int.ceil_intCast]
  have h1 : (emptySim.run (-1) 1).2.length = 0 := by
    unfold Simulation.run realTrunc
    rw [if_neg (by norm_num), hceil]
    rfl
  have hfloor : (⌊((-1 : ℝ)) / 1⌋ : ℤ) = -1 := by
    norm_num
  rw [h1, hfloor]
  norm_num

/-- C6 (amended): for every nonnegative duration and positive `dt`, `run` is
purely the `⌊duration / dt⌋`-fold repeated invocation of `step` — a duration
not evenly divisible by `dt` truncates the final partial interval — and it
returns one `(time, observations)` record per step. -/
theorem run_performs_floor_steps (sim : Simulation) (duration dt : ℝ)
    (hdur : 0 ≤ duration) (hdt : 0 < dt) :
    sim.run duration dt = sim.runSteps dt (⌊duration / dt⌋).toNat ∧
    (sim.run duration dt).2.length = (⌊duration / dt⌋).toNat := by
  have hq : 0 ≤ duration / dt := div_nonneg hdur hdt.le
  have htr : realTrunc (duration / dt) = ⌊duration / dt⌋ := if_pos hq
  constructor
  · unfold Simulation.run
    rw [htr]
  · unfold Simulation.run
    rw [htr, Simulation.runSteps_length]

/-- Witness for C6 (amended) at `duration = 5`, `dt = 2`. -/
theorem run_performs_floor_steps_witness :
    emptySim.run 5 2 = emptySim.runSteps 2 (⌊(5 : ℝ) / 2⌋).toNat ∧
    (emptySim.run 5 2).2.length = (⌊(5 : ℝ) / 2⌋).toNat :=
  run_performs_floor_steps emptySim 5 2 (by norm_num) (by norm_num)

/-- C5: every successful observation carries
`quality = clamp(1 - distance / max_range, 0, 1)`, which lies in `[0, 1]`;
the quality function is non-increasing in distance; a target at distance
strictly greater than `max_range` yields no observation; and a target at
distance exactly `max_range` is borderline-visible with quality 0. -/
theorem observe_quality_clamped (s : Sensor) (a b c : Aircraft)
    (t : Option TerrainData) (o : Observation) (d1 d2 : ℝ)
    (hR : 0 < s.max_range)
    (ho : s.observe a t = some o)
    (hd : d1 ≤ d2)
    (hb : s.calculate_distance b.position > s.max_range)
    (hc : s.calculate_distance c.position = s.max_range) :
    (o.quality = max 0 (min 1 (1 - o.distance / s.max_range)) ∧
      0 ≤ o.quality ∧ o.quality ≤ 1) ∧
    s.calculate_quality d2 a ≤ s.calculate_quality d1 a ∧
    s.observe b t = none ∧
    ∃ oc, s.observe c t = some oc ∧ oc.quality = 0 := by
  have hoe := Sensor.observe_eq_some ho
  refine ⟨⟨?_, ?_, ?_⟩, ?_, ?_, ?_⟩
  · rw [hoe]; rfl
  · rw [hoe]; exact le_max_left 0 _
  · rw [hoe]
    exact max_le zero_le_one (min_le_left _ _)
  · unfold Sensor.calculate_quality
    gcongr
  · unfold Sensor.observe
    rw [if_pos hb]
  · refine ⟨_, Sensor.observe_of_le hc.le, ?_⟩
    show s.calculate_quality (s.calculate_distance c.position) c = 0
    unfold Sensor.calculate_quality
    rw [hc, div_self (ne_of_gt hR)]
    norm_num

/-- Witness for C5 on a sensor of range 10 observing aircraft at distances
5, 11 and exactly 10. -/
theorem observe_quality_clamped_witness :
    (nearObs.quality = max 0 (min 1 (1 - nearObs.distance / qSensor.max_range)) ∧
      0 ≤ nearObs.quality ∧ nearObs.quality ≤ 1) ∧
    qSensor.calculate_quality 3 nearFlyer ≤ qSensor.calculate_quality 2 nearFlyer ∧
    qSensor.observe farFlyer none = none ∧
    ∃ oc, qSensor.observe rimFlyer none = some oc ∧ oc.quality = 0 := by
  have hdn : qSensor.calculate_distance nearFlyer.position = 5 := by
    rw [Sensor.calculate_distance_eval]
    refine sqrt_eval (by norm_num) ?_
    norm_num [qSensor, nearFlyer, Sensor.make, Aircraft.make]
  have hdf : qSensor.calculate_distance farFlyer.position = 11 := by
    rw [Sensor.calculate_distance_eval]
    refine sqrt_eval (by norm_num) ?_
    norm_num [qSensor, farFlyer, Sensor.make, Aircraft.make]
  have hdr : qSensor.calculate_distance rimFlyer.position = 10 := by
    rw [Sensor.calculate_distance_eval]
    refine sqrt_eval (by norm_num) ?_
    norm_num [qSensor, rimFlyer, Sensor.make, Aircraft.make]
  have hRq : qSensor.max_range = 10 := rfl
  have ho : qSensor.observe nearFlyer none = some nearObs := by
    rw [Sensor.observe_of_le (t := none) (by rw [hdn, hRq]; norm_num)]
    unfold Sensor.calculate_quality
    rw [hdn, hRq]
    norm_num [qSensor, nearFlyer, nearObs, Sensor.make, Aircraft.make,
      Observation.mk.injEq, min_def, max_def]
  exact observe_quality_clamped qSensor nearFlyer farFlyer rimFlyer none nearObs
    2 3 (by rw [hRq]; norm_num) ho (by norm_num)
    (by rw [hdf, hRq]; norm_num) (by rw [hdr, hRq])

/-- Helper: `argminAbs` returns the index of a list element whose absolute
difference to the query point is minimal over the whole list. -/
theorem argminAbs_spec (x : ℚ) (ys : List ℚ) (hne : ys ≠ []) :
    ∃ v, ys.get? (argminAbs x ys) = some v ∧ ∀ g ∈ ys, |v - x| ≤ |g - x| := by
  induction ys with
  | nil => exact absurd rfl hne
  | cons y ys ih =>
    cases hys : ys.get? (argminAbs x ys) with
    | none =>
      cases ys with
      | nil =>
        refine ⟨y, by simp [argminAbs], ?_⟩
        intro g hg
        rcases List.mem_singleton.1 hg with rfl
        exact le_refl _
      | cons z zs =>
        obtain ⟨v, hv, _⟩ := ih (by simp)
        cases hv.symm.trans hys
    | some v =>
      obtain ⟨v2, hv2, hmin⟩ := ih (by
        intro hnil
        rw [hnil] at hys
        cases hys)
      obtain rfl : v2 = v := Option.some.inj (hv2.symm.trans hys)
      by_cases hle : |y - x| ≤ |v2 - x|
      · have harg : argminAbs x (y :: ys) = 0 := by
          simp only [argminAbs, hys]
          rw [if_pos hle]
        refine ⟨y, ?_, ?_⟩
        · rw [harg]; rfl
        · intro g hg
          rcases List.mem_cons.1 hg with rfl | hg2
          · exact le_refl _
          · exact hle.trans (hmin g hg2)
      · have harg : argminAbs x (y :: ys) = argminAbs x ys + 1 := by
          simp only [argminAbs, hys]
          rw [if_neg hle]
        refine ⟨v2, ?_, ?_⟩
        · rw [harg, List.get?_cons_succ]
          exact hv2
        · intro g hg
          rcases List.mem_cons.1 hg with rfl | hg2
          · exact le_of_not_le hle
          · exact hmin g hg2

/-- C8: on a well-formed grid (raster dimensions matching the coordinate
grids, both nonempty), `get_elevation` returns `none` exactly for queries
outside the stored bounds, and for an in-bounds query it returns the stored
elevation of a nearest grid point in each axis — never a default value for an
out-of-bounds query. -/
theorem get_elevation_none_iff_out_of_bounds (t : TerrainData) (lat lon : ℚ)
    (hlen : t.elevations.length = t.lat_grid.length)
    (hrow : ∀ row ∈ t.elevations, row.length = t.lon_grid.length)
    (hlat : t.lat_grid ≠ []) (hlon : t.lon_grid ≠ []) :
    (t.get_elevation lat lon = none ↔ t.in_bounds lat lon = false) ∧
    (t.in_bounds lat lon = true →
      ∃ glat glon row e,
        t.lat_grid.get? (argminAbs lat t.lat_grid) = some glat ∧
        t.lon_grid.get? (argminAbs lon t.lon_grid) = some glon ∧
        (∀ g ∈ t.lat_grid, |glat - lat| ≤ |g - lat|) ∧
        (∀ g ∈ t.lon_grid, |glon - lon| ≤ |g - lon|) ∧
        t.elevations.get? (argminAbs lat t.lat_grid) = some row ∧
        row.get? (argminAbs lon t.lon_grid) = some e ∧
        t.get_elevation lat lon = some e) := by
  obtain ⟨glat, hglat, hminlat⟩ := argminAbs_spec lat t.lat_grid hlat
  obtain ⟨glon, hglon, hminlon⟩ := argminAbs_spec lon t.lon_grid hlon
  have hlt : argminAbs lat t.lat_grid < t.elevations.length := by
    rw [hlen]; exact (List.get?_eq_some.1 hglat).1
  obtain ⟨row, hrowget⟩ : ∃ row, t.elevations.get? (argminAbs lat t.lat_grid) = some row :=
    ⟨_, List.get?_eq_get hlt⟩
  have hrmem : row ∈ t.elevations := List.get?_mem hrowget
  have hltlon : argminAbs lon t.lon_grid < row.length := by
    rw [hrow row hrmem]; exact (List.get?_eq_some.1 hglon).1
  obtain ⟨e, heget⟩ : ∃ e, row.get? (argminAbs lon t.lon_grid) = some e :=
    ⟨_, List.get?_eq_get hltlon⟩
  cases hib : t.in_bounds lat lon with
  | false =>
    refine ⟨⟨fun _ => rfl, fun _ => ?_⟩, fun h => by cases h⟩
    simp [TerrainData.get_elevation, hib]
  | true =>
    have hsome : t.get_elevation lat lon = some e := by
      unfold TerrainData.get_elevation
      rw [hib]
      simp only [Bool.not_true, Bool.false_eq_true, if_false]
      rw [hrowget, Option.some_bind, heget]
    refine ⟨⟨fun hnone => ?_, fun hfalse => by cases hfalse⟩,
      fun _ => ⟨glat, glon, row, e, hglat, hglon, hminlat, hminlon, hrowget,
        heget, hsome⟩⟩
    rw [hsome] at hnone
    cases hnone

/-- Witness for C8 on a concrete 2 by 2 grid: the query (9/10, 1/5) is in
bounds and resolves to the nearest grid point (1, 0), elevation 7. -/
theorem get_elevation_none_iff_out_of_bounds_witness :
    (squareTerrain.get_elevation (9/10) (1/5) = none ↔
      squareTerrain.in_bounds (9/10) (1/5) = false) ∧
    (squareTerrain.in_bounds (9/10) (1/5) = true →
      ∃ glat glon row e,
        squareTerrain.lat_grid.get? (argminAbs (9/10) squareTerrain.lat_grid) = some glat ∧
        squareTerrain.lon_grid.get? (argminAbs (1/5) squareTerrain.lon_grid) = some glon ∧
        (∀ g ∈ squareTerrain.lat_grid, |glat - 9/10| ≤ |g - 9/10|) ∧
        (∀ g ∈ squareTerrain.lon_grid, |glon - 1/5| ≤ |g - 1/5|) ∧
        squareTerrain.elevations.get? (argminAbs (9/10) squareTerrain.lat_grid) = some row ∧
        row.get? (argminAbs (1/5) squareTerrain.lon_grid) = some e ∧
        squareTerrain.get_elevation (9/10) (1/5) = some e) :=
  get_elevation_none_iff_out_of_bounds squareTerrain (9/10) (1/5)
    (by simp [squareTerrain])
    (by
      intro row hr
      simp only [squareTerrain] at hr ⊢
      rcases List.mem_cons.1 hr with rfl | hr2
      · rfl
      · rcases List.mem_singleton.1 hr2 with rfl
        rfl)
    (by simp [squareTerrain])
    (by simp [squareTerrain])

end AlphaSim
